import Mathlib

/-!
Verification development for the multiple-activities CRUD application.

The repository is a TypeScript/Next.js application.  This file gives a
shallow embedding, in Lean, of the pure logic relevant to the verified
claims:

* the per-feature optimistic list reducers passed to `useOptimistic`
  (todo list, notes list, photo gallery, food-review gallery,
  pokemon-review gallery);
* the render-time first-occurrence deduplication (`uniqueNotes`,
  `uniquePhotos`);
* the server actions (`getTodos`, `getNotes`, `getPhotos`,
  `getFoodPhotos`, `uploadPhoto`, `uploadFoodPhoto`, `deleteTodo`,
  `updateNote`, `createReview`, `createPokemonReview`), modelled as pure
  functions over an explicit database (a list of rows), an explicit
  authenticated user, and an explicit environment describing the
  behaviour of the external collaborators (blob store, ORM); the
  functions also return the trace of external calls they perform and the
  resulting database;
* the client mutation handlers (`handleToggleComplete`, `handleDelete`,
  `handleSaveEdit`, `handlePriorityChange`, `handleUpload`), modelled as
  functions from the mutation outcome to a trace recording whether the
  speculative patch was applied, whether the mutation was dispatched and
  whether the authoritative refetch was issued.

JavaScript strings are modelled as Lean `String`; operations that the
source uses (`startsWith`, `trim`, `toLowerCase`, length, `||` defaults)
are given explicit executable models over `String.data` so that concrete
instances evaluate inside the kernel.  Timestamps are modelled as `Int`.
-/

/-! ## JavaScript string model -/

/-- Model of JavaScript `s.startsWith(pre)`. -/
def jsStartsWith (s pre : String) : Bool :=
  pre.data.isPrefixOf s.data

/-- A JavaScript whitespace character (the characters `trim` strips). -/
def jsIsWhitespace (c : Char) : Bool :=
  c == ' ' || c == '\t' || c == '\n' || c == '\r'

/-- Model of JavaScript `s.trim()`. -/
def jsTrim (s : String) : String :=
  ⟨((s.data.dropWhile jsIsWhitespace).reverse.dropWhile jsIsWhitespace).reverse⟩

/-- Model of JavaScript `s.length` (zod's string length). -/
def jsLength (s : String) : Nat :=
  s.data.length

/-- Model of JavaScript `a || b` for an optional string `a`:
the default is used when `a` is `null`/`undefined` or empty. -/
def jsOrElse (a : Option String) (b : String) : String :=
  match a with
  | none => b
  | some s => if s.data.isEmpty then b else s

/-- Model of JavaScript `s.toLowerCase()`. -/
def jsToLower (s : String) : String :=
  ⟨s.data.map Char.toLower⟩

/-- Whether `needle` occurs as a contiguous sublist of `hay`. -/
def charsContain (hay needle : List Char) : Bool :=
  match hay with
  | [] => needle.isEmpty
  | c :: rest => needle.isPrefixOf (c :: rest) || charsContain rest needle

/-- Model of the Prisma filter `name: { contains: search, mode: "insensitive" }`
guarded by the JavaScript truthiness test `search && …`:
a `null`/`undefined` or empty search matches everything. -/
def nameMatches (search : Option String) (nm : String) : Bool :=
  match search with
  | none => true
  | some s =>
      if s.data.isEmpty then true
      else charsContain (jsToLower nm).data (jsToLower s).data

/-- Lexicographic comparison on the characters of two strings
(model of the database's ordering on text columns). -/
def charsLe : List Char → List Char → Bool
  | [], _ => true
  | _ :: _, [] => false
  | a :: as, b :: bs =>
      if a == b then charsLe as bs else decide (a.toNat < b.toNat)

/-- String ordering used by `orderBy` on a name column. -/
def strLe (a b : String) : Bool :=
  charsLe a.data b.data

/-! ## JavaScript `Array.prototype.filter` with index -/

/-- `Todo` from `components/todo-list.tsx` (priority variant). -/
structure Todo where
  id : String
  title : String
  priority : String
  completed : Bool
  created_at : Int
  updated_at : Int
deriving DecidableEq, Repr

/-- `Note` from `app/actions/notes.ts`. -/
structure Note where
  id : String
  title : String
  content : String
  created_at : Int
  updated_at : Int
deriving DecidableEq, Repr

/-- `Photo` from the photo-gallery server actions. -/
structure Photo where
  id : String
  name : String
  url : String
  size : Option Int
  mime_type : Option String
  created_at : Int
  updated_at : Int
deriving DecidableEq, Repr

/-- `FoodPhoto` from `app/actions/food-photos.ts`; `reviewsCount` models the
optional `_count.reviews` include. -/
structure FoodPhoto where
  id : String
  name : String
  url : String
  size : Option Int
  mime_type : Option String
  created_at : Int
  updated_at : Int
  reviewsCount : Option Int
deriving DecidableEq, Repr

/-- `Pokemon` from the pokemon server actions; `reviewsCount` models the
optional `_count.reviews` include. -/
structure Pokemon where
  id : String
  pokemon_id : Int
  name : String
  image_url : String
  types : List String
  created_at : Int
  updated_at : Int
  reviewsCount : Option Int
deriving DecidableEq, Repr

/-! ## Optimistic reducers (the functions passed to `useOptimistic`) -/

/-- The action object `{type: string; todo?: Todo; id?: string}` of the todo
list reducer. -/
structure TodoAction where
  type : String
  todo : Option Todo := none
  id : Option String := none
deriving DecidableEq, Repr

/-- The optimistic reducer of `TodoList` (`components/todo-list.tsx`):
`add` prepends unconditionally, `toggle` flips `completed` on the matching id,
`delete` filters the id out, `update` replaces the matching item, anything
else is a no-op. -/
def todoListReducer (currentTodos : List Todo) (action : TodoAction) : List Todo :=
  match action.type with
  | "add" =>
      match action.todo with
      | some t => t :: currentTodos
      | none => currentTodos
  | "toggle" =>
      currentTodos.map (fun todo =>
        if some todo.id == action.id then { todo with completed := !todo.completed } else todo)
  | "delete" =>
      currentTodos.filter (fun todo => !(some todo.id == action.id))
  | "update" =>
      currentTodos.map (fun todo =>
        match action.todo with
        | some t => if some todo.id == action.id then t else todo
        | none => todo)
  | _ => currentTodos

/-- The action object of the notes list reducer. -/
structure NoteAction where
  type : String
  note : Option Note := none
  id : Option String := none
deriving DecidableEq, Repr

/-- The optimistic reducer of `NotesList`: `add` prepends unconditionally,
`delete` filters, `update` replaces, anything else is a no-op. -/
def notesListReducer (currentNotes : List Note) (action : NoteAction) : List Note :=
  match action.type with
  | "add" =>
      match action.note with
      | some n => n :: currentNotes
      | none => currentNotes
  | "delete" =>
      currentNotes.filter (fun note => !(some note.id == action.id))
  | "update" =>
      currentNotes.map (fun note =>
        match action.note with
        | some n => if some note.id == action.id then n else note
        | none => note)
  | _ => currentNotes

/-- The action object of the photo gallery reducer. -/
structure PhotoAction where
  type : String
  photo : Option Photo := none
  id : Option String := none
deriving DecidableEq, Repr

/-- The optimistic reducer of `PhotoGallery`: `add` first checks whether a
photo with the same id already exists and keeps the list unchanged if so. -/
def photoGalleryReducer (currentPhotos : List Photo) (action : PhotoAction) : List Photo :=
  match action.type with
  | "add" =>
      match action.photo with
      | none => currentPhotos
      | some p =>
          if currentPhotos.any (fun q => q.id == p.id) then currentPhotos
          else p :: currentPhotos
  | "delete" =>
      currentPhotos.filter (fun photo => !(some photo.id == action.id))
  | "update" =>
      currentPhotos.map (fun photo =>
        match action.photo with
        | some p => if some photo.id == action.id then p else photo
        | none => photo)
  | _ => currentPhotos

/-- The action object of the food-review gallery reducer. -/
structure FoodPhotoAction where
  type : String
  photo : Option FoodPhoto := none
  id : Option String := none
deriving DecidableEq, Repr

/-- The optimistic reducer of `FoodReviewGallery`: `add` checks for an
existing id before prepending. -/
def foodGalleryReducer (currentPhotos : List FoodPhoto) (action : FoodPhotoAction) :
    List FoodPhoto :=
  match action.type with
  | "add" =>
      match action.photo with
      | none => currentPhotos
      | some p =>
          if currentPhotos.any (fun q => q.id == p.id) then currentPhotos
          else p :: currentPhotos
  | "delete" =>
      currentPhotos.filter (fun photo => !(some photo.id == action.id))
  | "update" =>
      currentPhotos.map (fun photo =>
        match action.photo with
        | some p => if some photo.id == action.id then p else photo
        | none => photo)
  | _ => currentPhotos

/-- The action object of the pokemon-review gallery reducer. -/
structure PokemonAction where
  type : String
  pokemon : Option Pokemon := none
  id : Option String := none
deriving DecidableEq, Repr

/-- The optimistic reducer of `PokemonReviewGallery`: `add` checks for an
existing id before prepending; there is no `delete` case. -/
def pokemonGalleryReducer (currentPokemon : List Pokemon) (action : PokemonAction) :
    List Pokemon :=
  match action.type with
  | "add" =>
      match action.pokemon with
      | none => currentPokemon
      | some p =>
          if currentPokemon.any (fun q => q.id == p.id) then currentPokemon
          else p :: currentPokemon
  | "update" =>
      currentPokemon.map (fun p =>
        match action.pokemon with
        | some q => if some p.id == action.id then q else p
        | none => p)
  | _ => currentPokemon

/-! ## Render-time first-occurrence deduplication -/

/-- The authenticated user as exposed by `supabase.auth.getUser()`. -/
structure User where
  id : String
deriving DecidableEq, Repr

/-- A row of the `todos` table. -/
structure TodoRow where
  id : String
  profileId : String
  title : String
  priority : String
  completed : Bool
  created_at : Int
  updated_at : Int
deriving DecidableEq, Repr

/-- A row of the `notes` table. -/
structure NoteRow where
  id : String
  profileId : String
  title : String
  content : String
  created_at : Int
  updated_at : Int
deriving DecidableEq, Repr

/-- A row of the `photos` table. -/
structure PhotoRow where
  id : String
  profileId : String
  name : String
  url : String
  size : Option Int
  mime_type : Option String
  created_at : Int
  updated_at : Int
deriving DecidableEq, Repr

/-- A row of the `food_photos` table. -/
structure FoodPhotoRow where
  id : String
  profileId : String
  name : String
  url : String
  size : Option Int
  mime_type : Option String
  created_at : Int
  updated_at : Int
deriving DecidableEq, Repr

/-- A row of the `reviews` table. -/
structure ReviewRow where
  id : String
  foodPhotoId : String
  profileId : String
  rating : Int
  comment : Option String
  created_at : Int
  updated_at : Int
deriving DecidableEq, Repr

/-- A row of the `pokemon` table. -/
structure PokemonRow where
  id : String
  pokemon_id : Int
  name : String
  image_url : String
  types : List String
  created_at : Int
  updated_at : Int
deriving DecidableEq, Repr

/-- A row of the `pokemon_reviews` table. -/
structure PokemonReviewRow where
  id : String
  pokemonId : String
  profileId : String
  rating : Int
  comment : Option String
  created_at : Int
  updated_at : Int
deriving DecidableEq, Repr

/-! ## Endpoint return values

The server actions return one of two JavaScript object shapes:
`{success, message, data?}` (the mutation envelope) or `{data, error}`
(the list results).  A value is tagged by which shape it has. -/

/-- The two return-value shapes of the server actions. -/
inductive ServerResult (α : Type) where
  | envelope (success : Bool) (message : String) (data : Option α)
  | dataError (data : α) (error : Option String)
deriving DecidableEq, Repr

/-- Whether the value has the uniform envelope shape `{success, message, data?}`. -/
def ServerResult.isEnvelope {α : Type} : ServerResult α → Bool
  | .envelope _ _ _ => true
  | .dataError _ _ => false

/-- JavaScript truthiness of `result.success` (`undefined` on a
`{data, error}` object, hence falsy). -/
def ServerResult.successTruthy {α : Type} : ServerResult α → Bool
  | .envelope s _ _ => s
  | .dataError _ _ => false

/-- JavaScript truthiness of `result.data` for an envelope (`undefined`
when absent; a `{data, error}` object always carries a `data` field). -/
def ServerResult.dataTruthy {α : Type} : ServerResult α → Bool
  | .envelope _ _ d => d.isSome
  | .dataError _ _ => true

/-- The `message` field (empty for a `{data, error}` object, which has none). -/
def ServerResult.msg {α : Type} : ServerResult α → String
  | .envelope _ m _ => m
  | .dataError _ _ => ""

/-- The `data` field of a `{data, error}` list result. -/
def ServerResult.listData {ρ : Type} : ServerResult (List ρ) → List ρ
  | .envelope _ _ d => d.getD []
  | .dataError d _ => d

/-! ## List server actions -/

/-- `getTodos` (`app/actions/todos.ts`): requires authentication, then
`findMany` scoped to `profileId: user.id`, ordered by `created_at` descending;
a thrown database error is caught and converted to `{data: [], error}`. -/
def getTodos (user : Option User) (dbFail : Bool) (db : List TodoRow) :
    ServerResult (List TodoRow) :=
  match user with
  | none => .dataError [] (some "You must be logged in to view todos")
  | some u =>
      if dbFail then .dataError [] (some "Failed to load todos")
      else
        .dataError
          ((db.filter (fun r => r.profileId == u.id)).mergeSort
            (fun a b => decide (b.created_at ≤ a.created_at)))
          none

/-- `getNotes` (`app/actions/notes.ts`): scoped to `profileId: user.id`,
ordered by `updated_at` descending. -/
def getNotes (user : Option User) (dbFail : Bool) (db : List NoteRow) :
    ServerResult (List NoteRow) :=
  match user with
  | none => .dataError [] (some "You must be logged in to view notes")
  | some u =>
      if dbFail then .dataError [] (some "Failed to load notes")
      else
        .dataError
          ((db.filter (fun r => r.profileId == u.id)).mergeSort
            (fun a b => decide (b.updated_at ≤ a.updated_at)))
          none

/-- The `orderBy: {[sortBy]: sortOrder}` comparison for photo rows
(`sortBy` is `"name"` or `"created_at"`). -/
def photoOrderLe (sortBy sortOrder : String) (a b : PhotoRow) : Bool :=
  let ascLe := fun (x y : PhotoRow) =>
    if sortBy == "name" then strLe x.name y.name else decide (x.created_at ≤ y.created_at)
  if sortOrder == "desc" then ascLe b a else ascLe a b

/-- The `orderBy: {[sortBy]: sortOrder}` comparison for food-photo rows. -/
def foodPhotoOrderLe (sortBy sortOrder : String) (a b : FoodPhotoRow) : Bool :=
  let ascLe := fun (x y : FoodPhotoRow) =>
    if sortBy == "name" then strLe x.name y.name else decide (x.created_at ≤ y.created_at)
  if sortOrder == "desc" then ascLe b a else ascLe a b

/-- `getPhotos` (photo-gallery server actions): the `where` clause contains
`profileId: user.id` and, when `search` is truthy, the case-insensitive name
filter. -/
def getPhotos (user : Option User) (dbFail : Bool) (search : Option String)
    (sortBy sortOrder : String) (db : List PhotoRow) : ServerResult (List PhotoRow) :=
  match user with
  | none => .dataError [] (some "You must be logged in to view photos")
  | some u =>
      if dbFail then .dataError [] (some "Failed to load photos")
      else
        .dataError
          ((db.filter (fun r => r.profileId == u.id && nameMatches search r.name)).mergeSort
            (photoOrderLe sortBy sortOrder))
          none

/-- `getFoodPhotos` (`app/actions/food-photos.ts`): the `where` clause
contains only the optional case-insensitive name filter — it has no
`profileId` condition, so rows of every owner are returned.  (The
`_count.reviews` include only decorates each row and is omitted here.) -/
def getFoodPhotos (user : Option User) (dbFail : Bool) (search : Option String)
    (sortBy sortOrder : String) (db : List FoodPhotoRow) :
    ServerResult (List FoodPhotoRow) :=
  match user with
  | none => .dataError [] (some "You must be logged in to view food photos")
  | some _ =>
      if dbFail then .dataError [] (some "Failed to load food photos")
      else
        .dataError
          ((db.filter (fun r => nameMatches search r.name)).mergeSort
            (foodPhotoOrderLe sortBy sortOrder))
          none

/-! ## Upload server actions -/

/-- A JavaScript `File` as read from the upload `FormData`. -/
structure JsFile where
  name : String
  type : String
  size : Int
deriving DecidableEq, Repr

/-- Behaviour of the external collaborators during an upload: the blob
store's error (if any), the public URL it hands back, the id and timestamp
the database assigns, and whether the database write throws. -/
structure UploadEnv where
  uploadError : Option String
  publicUrl : String
  newId : String
  now : Int
  dbFail : Bool
deriving DecidableEq, Repr

/-- External calls an upload action can perform. -/
inductive StorageEffect where
  | storageUpload
  | dbCreate
  | revalidate
deriving DecidableEq, Repr

/-- Result of an upload action: the returned envelope and the trace of
external calls that were issued. -/
structure UploadOutcome (α : Type) where
  result : ServerResult α
  effects : List StorageEffect
deriving DecidableEq, Repr

/-- `uploadPhoto` (photo-gallery server actions): authentication, file
presence, content-type (`image/` prefix), size (10 MiB) and name (zod,
1–255) checks all return a failure envelope before any storage or
database call; the storage error branch embeds the upstream message. -/
def uploadPhoto (user : Option User) (file : Option JsFile) (name : Option String)
    (env : UploadEnv) : UploadOutcome Photo :=
  match user with
  | none => ⟨.envelope false "You must be logged in to upload photos" none, []⟩
  | some _ =>
      match file with
      | none => ⟨.envelope false "No file provided" none, []⟩
      | some f =>
          if !(jsStartsWith f.type "image/") then
            ⟨.envelope false "Only image files are allowed" none, []⟩
          else if f.size > 10 * 1024 * 1024 then
            ⟨.envelope false "File size must be less than 10MB" none, []⟩
          else
            let nm := jsOrElse name f.name
            if jsLength nm < 1 then ⟨.envelope false "Name is required" none, []⟩
            else if jsLength nm > 255 then ⟨.envelope false "Name is too long" none, []⟩
            else
              match env.uploadError with
              | some e =>
                  ⟨.envelope false ("Failed to upload photo: " ++ e) none, [.storageUpload]⟩
              | none =>
                  if env.dbFail then
                    ⟨.envelope false "Failed to upload photo" none,
                      [.storageUpload, .dbCreate]⟩
                  else
                    ⟨.envelope true "Photo uploaded successfully"
                      (some ⟨env.newId, nm, env.publicUrl, some f.size, some f.type,
                        env.now, env.now⟩),
                      [.storageUpload, .dbCreate, .revalidate]⟩

/-- `uploadFoodPhoto` (`app/actions/food-photos.ts`): same structure as
`uploadPhoto`; its storage error branch uses the same
`"Failed to upload photo: "` prefix, while its catch-all message differs. -/
def uploadFoodPhoto (user : Option User) (file : Option JsFile) (name : Option String)
    (env : UploadEnv) : UploadOutcome FoodPhoto :=
  match user with
  | none => ⟨.envelope false "You must be logged in to upload food photos" none, []⟩
  | some _ =>
      match file with
      | none => ⟨.envelope false "No file provided" none, []⟩
      | some f =>
          if !(jsStartsWith f.type "image/") then
            ⟨.envelope false "Only image files are allowed" none, []⟩
          else if f.size > 10 * 1024 * 1024 then
            ⟨.envelope false "File size must be less than 10MB" none, []⟩
          else
            let nm := jsOrElse name f.name
            if jsLength nm < 1 then ⟨.envelope false "Name is required" none, []⟩
            else if jsLength nm > 255 then ⟨.envelope false "Name is too long" none, []⟩
            else
              match env.uploadError with
              | some e =>
                  ⟨.envelope false ("Failed to upload photo: " ++ e) none, [.storageUpload]⟩
              | none =>
                  if env.dbFail then
                    ⟨.envelope false "Failed to upload food photo" none,
                      [.storageUpload, .dbCreate]⟩
                  else
                    ⟨.envelope true "Food photo uploaded successfully"
                      (some ⟨env.newId, nm, env.publicUrl, some f.size, some f.type,
                        env.now, env.now, none⟩),
                      [.storageUpload, .dbCreate, .revalidate]⟩

/-! ## Mutating server actions (ownership-guarded) -/

/-- Result of a mutating action together with the database it leaves behind. -/
structure MutationOutcome (ρ : Type) where
  result : ServerResult Unit
  db : List ρ
deriving DecidableEq, Repr

/-- `deleteTodo` (`app/actions/todos.ts`): authentication, then a
`findUnique` ownership check; only when the row exists and belongs to the
caller is the row deleted.  `dbFail` models a thrown ORM error (caught). -/
def deleteTodo (user : Option User) (id : String) (dbFail : Bool)
    (db : List TodoRow) : MutationOutcome TodoRow :=
  match user with
  | none => ⟨.envelope false "You must be logged in to delete todos" none, db⟩
  | some u =>
      if dbFail then ⟨.envelope false "Failed to delete todo" none, db⟩
      else
        match db.find? (fun r => r.id == id) with
        | none =>
            ⟨.envelope false
              "Todo not found or you don\x27t have permission to delete it" none, db⟩
        | some t =>
            if !(t.profileId == u.id) then
              ⟨.envelope false
                "Todo not found or you don\x27t have permission to delete it" none, db⟩
            else
              ⟨.envelope true "Todo deleted successfully" none,
                db.filter (fun r => !(r.id == id))⟩

/-- The `updates` argument of `updateNote`. -/
structure NoteUpdates where
  title : Option String := none
  content : Option String := none
deriving DecidableEq, Repr

/-- `updateNote` (`app/actions/notes.ts`): authentication, `findUnique`
ownership check, zod validation of the supplied fields, then the row
update (Prisma also refreshes `updated_at`, modelled by `now`). -/
def updateNote (user : Option User) (id : String) (updates : NoteUpdates)
    (dbFail : Bool) (now : Int) (db : List NoteRow) : MutationOutcome NoteRow :=
  match user with
  | none => ⟨.envelope false "You must be logged in to update notes" none, db⟩
  | some u =>
      if dbFail then ⟨.envelope false "Failed to update note" none, db⟩
      else
        match db.find? (fun r => r.id == id) with
        | none =>
            ⟨.envelope false
              "Note not found or you don\x27t have permission to update it" none, db⟩
        | some t =>
            if !(t.profileId == u.id) then
              ⟨.envelope false
                "Note not found or you don\x27t have permission to update it" none, db⟩
            else
              match updates.title with
              | some tl =>
                  if jsLength tl < 1 then ⟨.envelope false "Title is required" none, db⟩
                  else if jsLength tl > 255 then
                    ⟨.envelope false "Title is too long" none, db⟩
                  else
                    match updates.content with
                    | some c =>
                        if jsLength c > 50000 then
                          ⟨.envelope false "Content is too long" none, db⟩
                        else
                          ⟨.envelope true "Note updated successfully" none,
                            db.map (fun r =>
                              if r.id == id then
                                { r with title := tl, content := c, updated_at := now }
                              else r)⟩
                    | none =>
                        ⟨.envelope true "Note updated successfully" none,
                          db.map (fun r =>
                            if r.id == id then { r with title := tl, updated_at := now }
                            else r)⟩
              | none =>
                  match updates.content with
                  | some c =>
                      if jsLength c > 50000 then
                        ⟨.envelope false "Content is too long" none, db⟩
                      else
                        ⟨.envelope true "Note updated successfully" none,
                          db.map (fun r =>
                            if r.id == id then { r with content := c, updated_at := now }
                            else r)⟩
                  | none =>
                      ⟨.envelope true "Note updated successfully" none,
                        db.map (fun r =>
                          if r.id == id then { r with updated_at := now } else r)⟩

/-! ## Review creation -/

/-- Database-assigned values for a review creation, and whether the ORM throws. -/
structure CreateEnv where
  newId : String
  now : Int
  dbFail : Bool
deriving DecidableEq, Repr

/-- Result of a review creation: the returned envelope and the review table
it leaves behind. -/
structure ReviewOutcome (ρ : Type) where
  result : ServerResult ρ
  db : List ρ
deriving DecidableEq, Repr

/-- `comment || null` on the validated comment. -/
def jsCommentOrNull (c : Option String) : Option String :=
  match c with
  | none => none
  | some s => if s.data.isEmpty then none else some s

/-- `createReview` (`app/actions/reviews.ts`): authentication, zod
validation of rating and comment, food-photo existence, then the
`findFirst` duplicate check on `(foodPhotoId, profileId)`; only when no
review by this user for this photo exists is a row created. -/
def createReview (user : Option User) (foodPhotoId : String) (rating : Int)
    (comment : Option String) (env : CreateEnv) (photoDb : List FoodPhotoRow)
    (reviewDb : List ReviewRow) : ReviewOutcome ReviewRow :=
  match user with
  | none => ⟨.envelope false "You must be logged in to create reviews" none, reviewDb⟩
  | some u =>
      if rating < 1 then
        ⟨.envelope false "Rating must be at least 1" none, reviewDb⟩
      else if rating > 5 then
        ⟨.envelope false "Rating must be at most 5" none, reviewDb⟩
      else if (match comment with | some c => decide (jsLength c > 1000) | none => false) then
        ⟨.envelope false "Comment is too long" none, reviewDb⟩
      else if env.dbFail then
        ⟨.envelope false "Failed to create review" none, reviewDb⟩
      else
        match photoDb.find? (fun p => p.id == foodPhotoId) with
        | none => ⟨.envelope false "Food photo not found" none, reviewDb⟩
        | some _ =>
            match reviewDb.find?
                (fun r => r.foodPhotoId == foodPhotoId && r.profileId == u.id) with
            | some _ =>
                ⟨.envelope false "You have already reviewed this food photo" none,
                  reviewDb⟩
            | none =>
                let row : ReviewRow :=
                  ⟨env.newId, foodPhotoId, u.id, rating, jsCommentOrNull comment,
                    env.now, env.now⟩
                ⟨.envelope true "Review created successfully" (some row),
                  reviewDb ++ [row]⟩

/-- `createPokemonReview` (pokemon review server actions): identical
structure against the `pokemon` and `pokemon_reviews` tables. -/
def createPokemonReview (user : Option User) (pokemonId : String) (rating : Int)
    (comment : Option String) (env : CreateEnv) (pokemonDb : List PokemonRow)
    (reviewDb : List PokemonReviewRow) : ReviewOutcome PokemonReviewRow :=
  match user with
  | none => ⟨.envelope false "You must be logged in to create reviews" none, reviewDb⟩
  | some u =>
      if rating < 1 then
        ⟨.envelope false "Rating must be at least 1" none, reviewDb⟩
      else if rating > 5 then
        ⟨.envelope false "Rating must be at most 5" none, reviewDb⟩
      else if (match comment with | some c => decide (jsLength c > 1000) | none => false) then
        ⟨.envelope false "Comment is too long" none, reviewDb⟩
      else if env.dbFail then
        ⟨.envelope false "Failed to create review" none, reviewDb⟩
      else
        match pokemonDb.find? (fun p => p.id == pokemonId) with
        | none => ⟨.envelope false "Pokemon not found" none, reviewDb⟩
        | some _ =>
            match reviewDb.find?
                (fun r => r.pokemonId == pokemonId && r.profileId == u.id) with
            | some _ =>
                ⟨.envelope false "You have already reviewed this Pokemon" none,
                  reviewDb⟩
            | none =>
                let row : PokemonReviewRow :=
                  ⟨env.newId, pokemonId, u.id, rating, jsCommentOrNull comment,
                    env.now, env.now⟩
                ⟨.envelope true "Review created successfully" (some row),
                  reviewDb ++ [row]⟩

/-! ## Client mutation handlers

Each handler is modelled as a function from the remote mutation's outcome
to a trace recording whether a speculative patch was applied before the
call, whether the mutation was dispatched, and whether the authoritative
refetch (`loadTodos` / `loadPhotos`) was issued afterwards. -/

/-- Trace of one mutation handler run. -/
structure HandlerTrace where
  optimisticApplied : Bool
  mutationCalled : Bool
  refetched : Bool
deriving DecidableEq, Repr

/-- `handleToggleComplete` in `TodoList`: applies the optimistic toggle,
awaits `updateTodo`, and reloads on both the success and the failure branch. -/
def handleToggleComplete (result : ServerResult Unit) : HandlerTrace :=
  if result.successTruthy then
    { optimisticApplied := true, mutationCalled := true, refetched := true }
  else
    { optimisticApplied := true, mutationCalled := true, refetched := true }

/-- `handleDelete` in `TodoList`: applies the optimistic delete, awaits
`deleteTodo`, and reloads on both branches. -/
def handleDelete (result : ServerResult Unit) : HandlerTrace :=
  if result.successTruthy then
    { optimisticApplied := true, mutationCalled := true, refetched := true }
  else
    { optimisticApplied := true, mutationCalled := true, refetched := true }

/-- `handleSaveEdit` in `TodoList`: returns early on an empty trimmed title;
otherwise awaits `updateTodo` and reloads only on the success branch — the
failure branch shows a toast and issues no refetch. -/
def handleSaveEdit (editTitle : String) (result : ServerResult Unit) : HandlerTrace :=
  if (jsTrim editTitle).data.isEmpty then
    { optimisticApplied := false, mutationCalled := false, refetched := false }
  else if result.successTruthy then
    { optimisticApplied := false, mutationCalled := true, refetched := true }
  else
    { optimisticApplied := false, mutationCalled := true, refetched := false }

/-- `handlePriorityChange` in `TodoList`: applies the optimistic update,
awaits `updateTodo`, and reloads on both branches. -/
def handlePriorityChange (result : ServerResult Unit) : HandlerTrace :=
  if result.successTruthy then
    { optimisticApplied := true, mutationCalled := true, refetched := true }
  else
    { optimisticApplied := true, mutationCalled := true, refetched := true }

/-- `handleUpload` in `PhotoGallery`: returns early when no file is chosen;
otherwise awaits `uploadPhoto`, and only when `result.success && result.data`
holds does it apply the optimistic add and reload — the failure branch shows
a toast and issues no refetch. -/
def handleUpload (file : Option JsFile) (result : ServerResult Photo) : HandlerTrace :=
  match file with
  | none => { optimisticApplied := false, mutationCalled := false, refetched := false }
  | some _ =>
      if result.successTruthy && result.dataTruthy then
        { optimisticApplied := true, mutationCalled := true, refetched := true }
      else
        { optimisticApplied := false, mutationCalled := true, refetched := false }

/-! ## Concrete sample values used by witnesses and counterexamples -/

def sampleTodo : Todo := ⟨"1", "Buy milk", "medium", false, 0, 0⟩

def sampleTodoB : Todo := ⟨"2", "Walk dog", "high", true, 1, 1⟩

def sampleNote : Note := ⟨"n1", "Groceries", "milk", 0, 0⟩

def sampleNoteB : Note := ⟨"n1", "Groceries v2", "milk and eggs", 1, 1⟩

def sampleNoteC : Note := ⟨"n2", "Ideas", "todo app", 2, 2⟩

def samplePhoto : Photo := ⟨"p1", "beach.jpg", "https://blob/p1.jpg", some 100, some "image/jpeg", 0, 0⟩

def sampleFoodPhoto : FoodPhoto :=
  ⟨"f1", "ramen.jpg", "https://blob/f1.jpg", some 100, some "image/jpeg", 0, 0, some 0⟩

def sampleFoodPhotoB : FoodPhoto :=
  ⟨"f1", "ramen-dup.jpg", "https://blob/f1b.jpg", some 200, some "image/jpeg", 1, 1, some 2⟩

def samplePokemon : Pokemon :=
  ⟨"k1", 25, "pikachu", "https://img/25.png", ["electric"], 0, 0, some 0⟩

def sampleTodoRow : TodoRow := ⟨"t1", "me", "Buy milk", "medium", false, 0, 0⟩

def sampleNoteRow : NoteRow := ⟨"n1", "me", "Groceries", "milk", 0, 0⟩

def samplePhotoRow : PhotoRow :=
  ⟨"p1", "me", "beach.jpg", "https://blob/p1.jpg", some 100, some "image/jpeg", 0, 0⟩

def otherFoodRow : FoodPhotoRow :=
  ⟨"f9", "other-user", "ramen.jpg", "https://blob/f9.jpg", some 100, some "image/jpeg", 0, 0⟩

def sampleFoodPhotoRow : FoodPhotoRow :=
  ⟨"f1", "me", "ramen.jpg", "https://blob/f1.jpg", some 100, some "image/jpeg", 0, 0⟩

def samplePokemonRow : PokemonRow :=
  ⟨"k1", 25, "pikachu", "https://img/25.png", ["electric"], 0, 0⟩

def sampleReviewRow : ReviewRow := ⟨"r1", "f1", "me", 5, some "great", 0, 0⟩

def samplePokemonReviewRow : PokemonReviewRow := ⟨"r2", "k1", "me", 4, none, 0, 0⟩

def sampleImageFile : JsFile := ⟨"food.jpg", "image/jpeg", 512⟩

def samplePdfFile : JsFile := ⟨"doc.pdf", "application/pdf", 512⟩

def sampleEnvOk : UploadEnv := ⟨none, "https://blob/new.jpg", "new-id", 7, false⟩

def sampleEnvErrA : UploadEnv := ⟨some "Bucket not found", "https://blob/new.jpg", "new-id", 7, false⟩

def sampleEnvErrB : UploadEnv := ⟨some "Quota exceeded", "https://blob/new.jpg", "new-id", 7, false⟩

def sampleCreateEnv : CreateEnv := ⟨"rv-new", 9, false⟩

theorem str_beq_comm (a b : String) : (a == b) = (b == a) := by
  by_cases h : a = b
  · simp [h]
  · have h2 : ¬ b = a := fun hh => h hh.symm
    simp [beq_iff_eq, h, h2]

/-- C9: applying a `delete` action with an id `k` that occurs nowhere in
the base list returns a list equal to the base list, in the todo reducer
and in the notes reducer. -/
theorem delete_absent_id_noop
    (lt : List Todo) (ln : List Note) (k k2 : String)
    (ht : lt.all (fun todo => !(todo.id == k)) = true)
    (hn : ln.all (fun note => !(note.id == k2)) = true) :
    todoListReducer lt { type := "delete", id := some k } = lt
    ∧ notesListReducer ln { type := "delete", id := some k2 } = ln := by
  constructor
  · have hfilter : todoListReducer lt { type := "delete", id := some k }
        = lt.filter (fun todo => !(todo.id == k)) := rfl
    rw [hfilter, List.filter_eq_self]
    intro a ha
    exact List.all_eq_true.mp ht a ha
  · have hfilter : notesListReducer ln { type := "delete", id := some k2 }
        = ln.filter (fun note => !(note.id == k2)) := rfl
    rw [hfilter, List.filter_eq_self]
    intro a ha
    exact List.all_eq_true.mp hn a ha

/-- Witness for C9 at concrete lists and an absent id. -/
theorem delete_absent_id_noop_witness :
    [sampleTodo, sampleTodoB].all (fun todo => !(todo.id == "zzz")) = true
    ∧ [sampleNote, sampleNoteC].all (fun note => !(note.id == "zzz")) = true
    ∧ (todoListReducer [sampleTodo, sampleTodoB] { type := "delete", id := some "zzz" }
        = [sampleTodo, sampleTodoB]
      ∧ notesListReducer [sampleNote, sampleNoteC] { type := "delete", id := some "zzz" }
        = [sampleNote, sampleNoteC]) :=
  ⟨by decide, by decide,
    delete_absent_id_noop [sampleTodo, sampleTodoB] [sampleNote, sampleNoteC]
      "zzz" "zzz" (by decide) (by decide)⟩

/-! ## Claim C1: add-idempotence of the optimistic reducers -/

/-- C1 counterexample: the todo list's optimistic reducer does not check
for an existing id on `add` — adding an item whose id is already in the
base list prepends it again, so the claim "applying an Add action whose
item's id already occurs in the base list returns the base list
unchanged" is false for the todo reducer, and the resulting list carries
the id twice. -/
theorem todo_add_duplicate_counterexample :
    todoListReducer [sampleTodo] { type := "add", todo := some sampleTodo }
      = [sampleTodo, sampleTodo]
    ∧ ([sampleTodo, sampleTodo] : List Todo) ≠ [sampleTodo]
    ∧ ([sampleTodo, sampleTodo].countP (fun t => t.id == sampleTodo.id)) = 2 := by
  refine ⟨rfl, by decide, by decide⟩

/-- C1 amended: only the photo-gallery, food-review-gallery and
pokemon-review-gallery reducers are idempotent on `add` (a duplicate id
leaves the base list unchanged); the todo and notes reducers prepend the
item unconditionally, so a duplicate `add` yields the id twice. -/
theorem add_idempotence_guarded_galleries_only
    (bp : List Photo) (p : Photo) (hp : bp.any (fun q => q.id == p.id) = true)
    (bf : List FoodPhoto) (pf : FoodPhoto) (hf : bf.any (fun q => q.id == pf.id) = true)
    (bk : List Pokemon) (pk : Pokemon) (hk : bk.any (fun q => q.id == pk.id) = true)
    (bt : List Todo) (t : Todo) (bn : List Note) (n : Note) :
    photoGalleryReducer bp { type := "add", photo := some p } = bp
    ∧ foodGalleryReducer bf { type := "add", photo := some pf } = bf
    ∧ pokemonGalleryReducer bk { type := "add", pokemon := some pk } = bk
    ∧ todoListReducer bt { type := "add", todo := some t } = t :: bt
    ∧ notesListReducer bn { type := "add", note := some n } = n :: bn := by
  refine ⟨?_, ?_, ?_, rfl, rfl⟩
  · show (if bp.any (fun q => q.id == p.id) then bp else p :: bp) = bp
    rw [hp]
    rfl
  · show (if bf.any (fun q => q.id == pf.id) then bf else pf :: bf) = bf
    rw [hf]
    rfl
  · show (if bk.any (fun q => q.id == pk.id) then bk else pk :: bk) = bk
    rw [hk]
    rfl

/-- Witness for the amended C1 at concrete lists. -/
theorem add_idempotence_guarded_witness :
    [samplePhoto].any (fun q => q.id == samplePhoto.id) = true
    ∧ [sampleFoodPhoto].any (fun q => q.id == sampleFoodPhotoB.id) = true
    ∧ [samplePokemon].any (fun q => q.id == samplePokemon.id) = true
    ∧ (photoGalleryReducer [samplePhoto] { type := "add", photo := some samplePhoto }
        = [samplePhoto]
      ∧ foodGalleryReducer [sampleFoodPhoto] { type := "add", photo := some sampleFoodPhotoB }
        = [sampleFoodPhoto]
      ∧ pokemonGalleryReducer [samplePokemon] { type := "add", pokemon := some samplePokemon }
        = [samplePokemon]
      ∧ todoListReducer [sampleTodo] { type := "add", todo := some sampleTodo }
        = sampleTodo :: [sampleTodo]
      ∧ notesListReducer [sampleNote] { type := "add", note := some sampleNoteB }
        = sampleNoteB :: [sampleNote]) :=
  ⟨by decide, by decide, by decide,
    add_idempotence_guarded_galleries_only
      [samplePhoto] samplePhoto (by decide)
      [sampleFoodPhoto] sampleFoodPhotoB (by decide)
      [samplePokemon] samplePokemon (by decide)
      [sampleTodo] sampleTodo [sampleNote] sampleNoteB⟩

/-! ## Claim C2: refetch after every mutation completion -/

/-- C2 counterexample: the failure branch of `handleSaveEdit` in
`TodoList` shows a toast and returns without reloading — so there is a
completion path of a mutation handler that skips the authoritative
refetch, refuting the claim that every mutation completion issues one. -/
theorem save_edit_failure_skips_refetch_counterexample :
    (handleSaveEdit "Updated title"
        (.envelope false "Failed to update todo" none)).mutationCalled = true
    ∧ (handleSaveEdit "Updated title"
        (.envelope false "Failed to update todo" none)).refetched = false := by
  refine ⟨by decide, by decide⟩

/-- C2 amended: the handlers that apply a speculative patch before
dispatching the mutation (`handleToggleComplete`, `handleDelete`,
`handlePriorityChange`) refetch on both the success and the failure
branch; `handleSaveEdit` and `handleUpload`, which apply no patch before
the call, dispatch the mutation but refetch only when it reports
success — their failure branches skip the refetch. -/
theorem refetch_policy_per_handler
    (r1 r2 r3 r4 : ServerResult Unit) (t : String) (f : JsFile)
    (r5 : ServerResult Photo)
    (ht : (jsTrim t).data.isEmpty = false) :
    (handleToggleComplete r1).refetched = true
    ∧ (handleDelete r2).refetched = true
    ∧ (handlePriorityChange r3).refetched = true
    ∧ ((handleSaveEdit t r4).mutationCalled = true
        ∧ (handleSaveEdit t r4).refetched = r4.successTruthy)
    ∧ ((handleUpload (some f) r5).mutationCalled = true
        ∧ (handleUpload (some f) r5).refetched = (r5.successTruthy && r5.dataTruthy)) := by
  refine ⟨?_, ?_, ?_, ⟨?_, ?_⟩, ⟨?_, ?_⟩⟩
  · by_cases h : r1.successTruthy <;> simp [handleToggleComplete, h]
  · by_cases h : r2.successTruthy <;> simp [handleDelete, h]
  · by_cases h : r3.successTruthy <;> simp [handlePriorityChange, h]
  · by_cases h : r4.successTruthy <;> simp [handleSaveEdit, ht, h]
  · by_cases h : r4.successTruthy <;> simp [handleSaveEdit, ht, h]
  · by_cases h : r5.successTruthy && r5.dataTruthy <;> simp [handleUpload, h]
  · by_cases h : r5.successTruthy && r5.dataTruthy <;> simp [handleUpload, h]

/-- Witness for the amended C2 at concrete outcomes. -/
theorem refetch_policy_witness :
    (jsTrim "Updated title").data.isEmpty = false
    ∧ ((handleToggleComplete (.envelope false "Failed to update todo" none)).refetched = true
      ∧ (handleDelete (.envelope false "Failed to delete todo" none)).refetched = true
      ∧ (handlePriorityChange (.envelope true "Todo updated successfully" none)).refetched
          = true
      ∧ ((handleSaveEdit "Updated title"
            (.envelope true "Todo updated successfully" none)).mutationCalled = true
        ∧ (handleSaveEdit "Updated title"
            (.envelope true "Todo updated successfully" none)).refetched
          = (ServerResult.envelope true "Todo updated successfully" none
              : ServerResult Unit).successTruthy)
      ∧ ((handleUpload (some sampleImageFile)
            (.envelope false "Failed to upload photo" none)).mutationCalled = true
        ∧ (handleUpload (some sampleImageFile)
            (.envelope false "Failed to upload photo" none)).refetched
          = ((ServerResult.envelope false "Failed to upload photo" none
                : ServerResult Photo).successTruthy
              && (ServerResult.envelope false "Failed to upload photo" none
                : ServerResult Photo).dataTruthy))) :=
  ⟨by decide,
    refetch_policy_per_handler
      (.envelope false "Failed to update todo" none)
      (.envelope false "Failed to delete todo" none)
      (.envelope true "Todo updated successfully" none)
      (.envelope true "Todo updated successfully" none)
      "Updated title" sampleImageFile
      (.envelope false "Failed to upload photo" none)
      (by decide)⟩

/-! ## Claim C3: owner scoping of the list operations -/

/-- C3 counterexample: `getFoodPhotos` has no `profileId` condition in
its `where` clause, so a food photo owned by a different user is
returned to the authenticated caller — refuting the claim that every
list operation returns only items owned by the caller. -/
theorem getfoodphotos_cross_owner_counterexample :
    (getFoodPhotos (some ⟨"me"⟩) false none "created_at" "desc" [otherFoodRow]).listData
      = [otherFoodRow]
    ∧ otherFoodRow.profileId ≠ "me" := by
  constructor
  · show (([otherFoodRow].filter (fun r => nameMatches none r.name)).mergeSort
        (foodPhotoOrderLe "created_at" "desc")) = [otherFoodRow]
    rw [show ([otherFoodRow].filter (fun r => nameMatches none r.name))
        = [otherFoodRow] from rfl]
    exact List.mergeSort_singleton otherFoodRow
  · decide

/-- C3 amended: `getTodos`, `getNotes` and `getPhotos` are scoped to the
caller (`profileId: user.id` in the `where` clause), so every returned
row is owned by the caller; `getFoodPhotos` filters only by the optional
name search, so every stored row whose name matches — whatever its
owner — is returned. -/
theorem list_owner_scoping
    (u : User) (dbF : Bool) (search : Option String) (sb so : String)
    (db1 : List TodoRow) (db2 : List NoteRow) (db3 : List PhotoRow)
    (db4 : List FoodPhotoRow) (x1 : TodoRow) (x2 : NoteRow) (x3 : PhotoRow)
    (y : FoodPhotoRow)
    (h1 : x1 ∈ (getTodos (some u) dbF db1).listData)
    (h2 : x2 ∈ (getNotes (some u) dbF db2).listData)
    (h3 : x3 ∈ (getPhotos (some u) dbF search sb so db3).listData)
    (hy : y ∈ db4) (hmatch : nameMatches search y.name = true) :
    x1.profileId = u.id ∧ x2.profileId = u.id ∧ x3.profileId = u.id
    ∧ y ∈ (getFoodPhotos (some u) false search sb so db4).listData := by
  refine ⟨?_, ?_, ?_, ?_⟩
  · cases dbF with
    | true => simp [getTodos, ServerResult.listData] at h1
    | false =>
        have h1' : x1 ∈ db1.filter (fun r => r.profileId == u.id) :=
          List.mem_mergeSort.mp h1
        have := (List.mem_filter.mp h1').2
        simpa [beq_iff_eq] using this
  · cases dbF with
    | true => simp [getNotes, ServerResult.listData] at h2
    | false =>
        have h2' : x2 ∈ db2.filter (fun r => r.profileId == u.id) :=
          List.mem_mergeSort.mp h2
        have := (List.mem_filter.mp h2').2
        simpa [beq_iff_eq] using this
  · cases dbF with
    | true => simp [getPhotos, ServerResult.listData] at h3
    | false =>
        have h3' : x3 ∈ db3.filter
            (fun r => r.profileId == u.id && nameMatches search r.name) :=
          List.mem_mergeSort.mp h3
        have := (List.mem_filter.mp h3').2
        have hown : (x3.profileId == u.id) = true := by
          have hand := this
          rw [Bool.and_eq_true] at hand
          exact hand.1
        simpa [beq_iff_eq] using hown
  · show y ∈ ((db4.filter (fun r => nameMatches search r.name)).mergeSort
      (foodPhotoOrderLe sb so))
    exact List.mem_mergeSort.mpr (List.mem_filter.mpr ⟨hy, hmatch⟩)

/-- Witness for the amended C3 at a concrete database containing a row
of another owner. -/
theorem list_owner_scoping_witness :
    sampleTodoRow ∈ (getTodos (some ⟨"me"⟩) false [sampleTodoRow]).listData
    ∧ sampleNoteRow ∈ (getNotes (some ⟨"me"⟩) false [sampleNoteRow]).listData
    ∧ samplePhotoRow ∈ (getPhotos (some ⟨"me"⟩) false none "created_at" "desc"
        [samplePhotoRow]).listData
    ∧ otherFoodRow ∈ [otherFoodRow]
    ∧ nameMatches none otherFoodRow.name = true
    ∧ (sampleTodoRow.profileId = "me" ∧ sampleNoteRow.profileId = "me"
      ∧ samplePhotoRow.profileId = "me"
      ∧ otherFoodRow ∈ (getFoodPhotos (some ⟨"me"⟩) false none "created_at" "desc"
          [otherFoodRow]).listData) := by
  have h1 : sampleTodoRow ∈ (getTodos (some ⟨"me"⟩) false [sampleTodoRow]).listData := by
    show sampleTodoRow ∈ (([sampleTodoRow].filter (fun r => r.profileId == "me")).mergeSort
      (fun a b => decide (b.created_at ≤ a.created_at)))
    rw [show ([sampleTodoRow].filter (fun r => r.profileId == "me"))
        = [sampleTodoRow] from rfl]
    rw [List.mergeSort_singleton sampleTodoRow]
    exact List.mem_singleton.mpr rfl
  have h2 : sampleNoteRow ∈ (getNotes (some ⟨"me"⟩) false [sampleNoteRow]).listData := by
    show sampleNoteRow ∈ (([sampleNoteRow].filter (fun r => r.profileId == "me")).mergeSort
      (fun a b => decide (b.updated_at ≤ a.updated_at)))
    rw [show ([sampleNoteRow].filter (fun r => r.profileId == "me"))
        = [sampleNoteRow] from rfl]
    rw [List.mergeSort_singleton sampleNoteRow]
    exact List.mem_singleton.mpr rfl
  have h3 : samplePhotoRow ∈ (getPhotos (some ⟨"me"⟩) false none "created_at" "desc"
      [samplePhotoRow]).listData := by
    show samplePhotoRow ∈ (([samplePhotoRow].filter
        (fun r => r.profileId == "me" && nameMatches none r.name)).mergeSort
      (photoOrderLe "created_at" "desc"))
    rw [show ([samplePhotoRow].filter
        (fun r => r.profileId == "me" && nameMatches none r.name))
        = [samplePhotoRow] from rfl]
    rw [List.mergeSort_singleton samplePhotoRow]
    exact List.mem_singleton.mpr rfl
  refine ⟨h1, h2, h3, List.mem_singleton.mpr rfl, rfl, ?_⟩
  exact list_owner_scoping ⟨"me"⟩ false none "created_at" "desc"
    [sampleTodoRow] [sampleNoteRow] [samplePhotoRow] [otherFoodRow]
    sampleTodoRow sampleNoteRow samplePhotoRow otherFoodRow
    h1 h2 h3 (List.mem_singleton.mpr rfl) rfl

/-! ## Claim C5: upload validation precedes all external calls -/

theorem uploadPhoto_bad_type (u : User) (f : JsFile) (name : Option String)
    (env : UploadEnv) (hT : jsStartsWith f.type "image/" = false) :
    uploadPhoto (some u) (some f) name env
      = ⟨.envelope false "Only image files are allowed" none, []⟩ := by
  show (if !(jsStartsWith f.type "image/") then
      (⟨.envelope false "Only image files are allowed" none, []⟩ : UploadOutcome Photo)
    else _) = _
  rw [hT]
  rfl

theorem uploadPhoto_bad_size (u : User) (f : JsFile) (name : Option String)
    (env : UploadEnv) (hT : jsStartsWith f.type "image/" = true)
    (hS : f.size > 10 * 1024 * 1024) :
    uploadPhoto (some u) (some f) name env
      = ⟨.envelope false "File size must be less than 10MB" none, []⟩ := by
  show (if !(jsStartsWith f.type "image/") then _
    else if f.size > 10 * 1024 * 1024 then
      (⟨.envelope false "File size must be less than 10MB" none, []⟩ : UploadOutcome Photo)
    else _) = _
  rw [hT, if_pos hS]
  rfl

theorem uploadFoodPhoto_bad_type (u : User) (f : JsFile) (name : Option String)
    (env : UploadEnv) (hT : jsStartsWith f.type "image/" = false) :
    uploadFoodPhoto (some u) (some f) name env
      = ⟨.envelope false "Only image files are allowed" none, []⟩ := by
  show (if !(jsStartsWith f.type "image/") then
      (⟨.envelope false "Only image files are allowed" none, []⟩ : UploadOutcome FoodPhoto)
    else _) = _
  rw [hT]
  rfl

theorem uploadFoodPhoto_bad_size (u : User) (f : JsFile) (name : Option String)
    (env : UploadEnv) (hT : jsStartsWith f.type "image/" = true)
    (hS : f.size > 10 * 1024 * 1024) :
    uploadFoodPhoto (some u) (some f) name env
      = ⟨.envelope false "File size must be less than 10MB" none, []⟩ := by
  show (if !(jsStartsWith f.type "image/") then _
    else if f.size > 10 * 1024 * 1024 then
      (⟨.envelope false "File size must be less than 10MB" none, []⟩ :
        UploadOutcome FoodPhoto)
    else _) = _
  rw [hT, if_pos hS]
  rfl

/-- C5: whenever the file's content type does not start with `image/` or
its size exceeds 10 MiB, `uploadPhoto` and `uploadFoodPhoto` return a
failure envelope and issue no storage-upload call and no database
write — the effect trace is empty. -/
theorem upload_validation_blocks_effects
    (user : Option User) (f : JsFile) (name name2 : Option String)
    (env env2 : UploadEnv)
    (h : jsStartsWith f.type "image/" = false ∨ f.size > 10 * 1024 * 1024) :
    ((uploadPhoto user (some f) name env).result.isEnvelope = true
      ∧ (uploadPhoto user (some f) name env).result.successTruthy = false
      ∧ (uploadPhoto user (some f) name env).effects = [])
    ∧ ((uploadFoodPhoto user (some f) name2 env2).result.isEnvelope = true
      ∧ (uploadFoodPhoto user (some f) name2 env2).result.successTruthy = false
      ∧ (uploadFoodPhoto user (some f) name2 env2).effects = []) := by
  cases user with
  | none => exact ⟨⟨rfl, rfl, rfl⟩, ⟨rfl, rfl, rfl⟩⟩
  | some u =>
      cases hb : jsStartsWith f.type "image/" with
      | false =>
          rw [uploadPhoto_bad_type u f name env hb,
            uploadFoodPhoto_bad_type u f name2 env2 hb]
          exact ⟨⟨rfl, rfl, rfl⟩, ⟨rfl, rfl, rfl⟩⟩
      | true =>
          have hS : f.size > 10 * 1024 * 1024 := by
            cases h with
            | inl hl => rw [hb] at hl; cases hl
            | inr hr => exact hr
          rw [uploadPhoto_bad_size u f name env hb hS,
            uploadFoodPhoto_bad_size u f name2 env2 hb hS]
          exact ⟨⟨rfl, rfl, rfl⟩, ⟨rfl, rfl, rfl⟩⟩

/-- Witness for C5: a PDF upload is rejected with no external calls. -/
theorem upload_validation_blocks_effects_witness :
    (jsStartsWith samplePdfFile.type "image/" = false
      ∨ samplePdfFile.size > 10 * 1024 * 1024)
    ∧ (((uploadPhoto (some ⟨"me"⟩) (some samplePdfFile) none sampleEnvOk).result.isEnvelope
          = true
        ∧ (uploadPhoto (some ⟨"me"⟩) (some samplePdfFile) none
            sampleEnvOk).result.successTruthy = false
        ∧ (uploadPhoto (some ⟨"me"⟩) (some samplePdfFile) none sampleEnvOk).effects = [])
      ∧ ((uploadFoodPhoto (some ⟨"me"⟩) (some samplePdfFile) none
            sampleEnvOk).result.isEnvelope = true
        ∧ (uploadFoodPhoto (some ⟨"me"⟩) (some samplePdfFile) none
            sampleEnvOk).result.successTruthy = false
        ∧ (uploadFoodPhoto (some ⟨"me"⟩) (some samplePdfFile) none
            sampleEnvOk).effects = [])) :=
  ⟨by decide,
    upload_validation_blocks_effects (some ⟨"me"⟩) samplePdfFile none none
      sampleEnvOk sampleEnvOk (by decide)⟩

/-! ## Claim C6: server-side ownership guard on update and delete -/

theorem deleteTodo_unfold (u : User) (id : String) (db : List TodoRow) :
    deleteTodo (some u) id false db
      = (match db.find? (fun r => r.id == id) with
        | none =>
            (⟨.envelope false
              "Todo not found or you don\x27t have permission to delete it" none, db⟩ :
              MutationOutcome TodoRow)
        | some t =>
            if !(t.profileId == u.id) then
              ⟨.envelope false
                "Todo not found or you don\x27t have permission to delete it" none, db⟩
            else
              ⟨.envelope true "Todo deleted successfully" none,
                db.filter (fun r => !(r.id == id))⟩) := rfl

/-- C6: when the targeted row does not exist or belongs to a different
owner, `deleteTodo` and `updateNote` return a failure envelope and leave
the stored rows unchanged. -/
theorem ownership_guard_blocks_mutation
    (u : User) (id1 id2 : String) (dbF1 dbF2 : Bool) (now : Int)
    (updates : NoteUpdates) (db1 : List TodoRow) (db2 : List NoteRow)
    (h1 : ∀ r ∈ db1, r.id = id1 → r.profileId ≠ u.id)
    (h2 : ∀ r ∈ db2, r.id = id2 → r.profileId ≠ u.id) :
    ((deleteTodo (some u) id1 dbF1 db1).result.successTruthy = false
      ∧ (deleteTodo (some u) id1 dbF1 db1).db = db1)
    ∧ ((updateNote (some u) id2 updates dbF2 now db2).result.successTruthy = false
      ∧ (updateNote (some u) id2 updates dbF2 now db2).db = db2) := by
  constructor
  · cases dbF1 with
    | true => exact ⟨rfl, rfl⟩
    | false =>
        rw [deleteTodo_unfold u id1 db1]
        cases hfind : db1.find? (fun r => r.id == id1) with
        | none => exact ⟨rfl, rfl⟩
        | some t =>
            have hmem : t ∈ db1 := List.mem_of_find?_eq_some hfind
            have hid := List.find?_some hfind
            have hne : t.profileId ≠ u.id := h1 t hmem (by simpa [beq_iff_eq] using hid)
            have hfalse : (t.profileId == u.id) = false := by
              simp [beq_iff_eq, hne]
            simp [hfalse, ServerResult.successTruthy]
  · cases dbF2 with
    | true => exact ⟨rfl, rfl⟩
    | false =>
        have hunfold : updateNote (some u) id2 updates false now db2
            = (match db2.find? (fun r => r.id == id2) with
              | none =>
                  (⟨.envelope false
                    "Note not found or you don\x27t have permission to update it" none,
                    db2⟩ : MutationOutcome NoteRow)
              | some t =>
                  if !(t.profileId == u.id) then
                    ⟨.envelope false
                      "Note not found or you don\x27t have permission to update it" none,
                      db2⟩
                  else _) := rfl
        rw [hunfold]
        cases hfind : db2.find? (fun r => r.id == id2) with
        | none => exact ⟨rfl, rfl⟩
        | some t =>
            have hmem : t ∈ db2 := List.mem_of_find?_eq_some hfind
            have hid := List.find?_some hfind
            have hne : t.profileId ≠ u.id := h2 t hmem (by simpa [beq_iff_eq] using hid)
            have hfalse : (t.profileId == u.id) = false := by
              simp [beq_iff_eq, hne]
            simp [hfalse, ServerResult.successTruthy]

/-- Witness for C6: deleting another owner's todo and updating another
owner's note both fail and leave the database unchanged. -/
theorem ownership_guard_blocks_mutation_witness :
    (∀ r ∈ [sampleTodoRow], r.id = "t1" → r.profileId ≠ "intruder")
    ∧ (∀ r ∈ [sampleNoteRow], r.id = "n1" → r.profileId ≠ "intruder")
    ∧ (((deleteTodo (some ⟨"intruder"⟩) "t1" false [sampleTodoRow]).result.successTruthy
          = false
        ∧ (deleteTodo (some ⟨"intruder"⟩) "t1" false [sampleTodoRow]).db = [sampleTodoRow])
      ∧ ((updateNote (some ⟨"intruder"⟩) "n1" { title := some "Hacked" } false 3
            [sampleNoteRow]).result.successTruthy = false
        ∧ (updateNote (some ⟨"intruder"⟩) "n1" { title := some "Hacked" } false 3
            [sampleNoteRow]).db = [sampleNoteRow])) :=
  ⟨by decide, by decide,
    ownership_guard_blocks_mutation ⟨"intruder"⟩ "t1" "n1" false false 3
      { title := some "Hacked" } [sampleTodoRow] [sampleNoteRow]
      (by decide) (by decide)⟩

/-! ## Claim C7: uniform envelope shape of the endpoints -/

/-- C7 counterexample: `getTodos` returns a `{data, error}` object — for
an authenticated caller and an empty database the result is
`{data: [], error: null}`, which does not have the uniform
`{success, message, data?}` envelope shape. -/
theorem gettodos_not_envelope_counterexample :
    (getTodos (some ⟨"me"⟩) false []).isEnvelope = false := rfl

theorem uploadPhoto_isEnvelope (user : Option User) (file : Option JsFile)
    (name : Option String) (env : UploadEnv) :
    (uploadPhoto user file name env).result.isEnvelope = true := by
  unfold uploadPhoto
  cases user with
  | none => rfl
  | some u =>
      cases file with
      | none => rfl
      | some f =>
          dsimp only
          repeat' split
          all_goals rfl

theorem uploadFoodPhoto_isEnvelope (user : Option User) (file : Option JsFile)
    (name : Option String) (env : UploadEnv) :
    (uploadFoodPhoto user file name env).result.isEnvelope = true := by
  unfold uploadFoodPhoto
  cases user with
  | none => rfl
  | some u =>
      cases file with
      | none => rfl
      | some f =>
          dsimp only
          repeat' split
          all_goals rfl

theorem deleteTodo_isEnvelope (user : Option User) (id : String) (dbFail : Bool)
    (db : List TodoRow) :
    (deleteTodo user id dbFail db).result.isEnvelope = true := by
  unfold deleteTodo
  cases user with
  | none => rfl
  | some u =>
      dsimp only
      repeat' split
      all_goals rfl

theorem updateNote_isEnvelope (user : Option User) (id : String)
    (updates : NoteUpdates) (dbFail : Bool) (now : Int) (db : List NoteRow) :
    (updateNote user id updates dbFail now db).result.isEnvelope = true := by
  unfold updateNote
  cases user with
  | none => rfl
  | some u =>
      dsimp only
      repeat' split
      all_goals rfl

theorem createReview_isEnvelope (user : Option User) (fid : String) (rating : Int)
    (comment : Option String) (env : CreateEnv) (photoDb : List FoodPhotoRow)
    (rdb : List ReviewRow) :
    (createReview user fid rating comment env photoDb rdb).result.isEnvelope = true := by
  unfold createReview
  cases user with
  | none => rfl
  | some u =>
      dsimp only
      repeat' split
      all_goals rfl

theorem createPokemonReview_isEnvelope (user : Option User) (pid : String)
    (rating : Int) (comment : Option String) (env : CreateEnv)
    (pokemonDb : List PokemonRow) (rdb : List PokemonReviewRow) :
    (createPokemonReview user pid rating comment env pokemonDb rdb).result.isEnvelope
      = true := by
  unfold createPokemonReview
  cases user with
  | none => rfl
  | some u =>
      dsimp only
      repeat' split
      all_goals rfl

theorem getTodos_not_isEnvelope (user : Option User) (dbFail : Bool)
    (db : List TodoRow) : (getTodos user dbFail db).isEnvelope = false := by
  unfold getTodos
  cases user with
  | none => rfl
  | some u =>
      dsimp only
      split <;> rfl

theorem getNotes_not_isEnvelope (user : Option User) (dbFail : Bool)
    (db : List NoteRow) : (getNotes user dbFail db).isEnvelope = false := by
  unfold getNotes
  cases user with
  | none => rfl
  | some u =>
      dsimp only
      split <;> rfl

theorem getPhotos_not_isEnvelope (user : Option User) (dbFail : Bool)
    (search : Option String) (sb so : String) (db : List PhotoRow) :
    (getPhotos user dbFail search sb so db).isEnvelope = false := by
  unfold getPhotos
  cases user with
  | none => rfl
  | some u =>
      dsimp only
      split <;> rfl

theorem getFoodPhotos_not_isEnvelope (user : Option User) (dbFail : Bool)
    (search : Option String) (sb so : String) (db : List FoodPhotoRow) :
    (getFoodPhotos user dbFail search sb so db).isEnvelope = false := by
  unfold getFoodPhotos
  cases user with
  | none => rfl
  | some u =>
      dsimp only
      split <;> rfl

/-- C7 amended: the mutation endpoints (uploads, delete, update, review
creation) always return the `{success, message, data?}` envelope shape,
but the list/get endpoints (`getTodos`, `getNotes`, `getPhotos`,
`getFoodPhotos`) always return the `{data, error}` shape instead. -/
theorem envelope_shape_by_endpoint
    (u1 u2 u3 u4 u5 u6 u7 u8 u9 u10 : Option User)
    (file1 file2 : Option JsFile) (nm1 nm2 : Option String) (env1 env2 : UploadEnv)
    (id1 id2 : String) (dbF1 dbF2 dbF3 dbF4 dbF5 dbF6 : Bool) (now : Int)
    (updates : NoteUpdates) (dbT : List TodoRow) (dbN : List NoteRow)
    (fid pid : String) (rating1 rating2 : Int) (c1 c2 : Option String)
    (cenv1 cenv2 : CreateEnv) (photoDb : List FoodPhotoRow)
    (pokemonDb : List PokemonRow) (rdb1 : List ReviewRow)
    (rdb2 : List PokemonReviewRow) (search1 search2 : Option String)
    (sb1 so1 sb2 so2 : String) (dbT2 : List TodoRow) (dbN2 : List NoteRow)
    (dbP : List PhotoRow) (dbF : List FoodPhotoRow) :
    (uploadPhoto u1 file1 nm1 env1).result.isEnvelope = true
    ∧ (uploadFoodPhoto u2 file2 nm2 env2).result.isEnvelope = true
    ∧ (deleteTodo u3 id1 dbF1 dbT).result.isEnvelope = true
    ∧ (updateNote u4 id2 updates dbF2 now dbN).result.isEnvelope = true
    ∧ (createReview u5 fid rating1 c1 cenv1 photoDb rdb1).result.isEnvelope = true
    ∧ (createPokemonReview u6 pid rating2 c2 cenv2 pokemonDb rdb2).result.isEnvelope = true
    ∧ (getTodos u7 dbF3 dbT2).isEnvelope = false
    ∧ (getNotes u8 dbF4 dbN2).isEnvelope = false
    ∧ (getPhotos u9 dbF5 search1 sb1 so1 dbP).isEnvelope = false
    ∧ (getFoodPhotos u10 dbF6 search2 sb2 so2 dbF).isEnvelope = false :=
  ⟨uploadPhoto_isEnvelope u1 file1 nm1 env1,
    uploadFoodPhoto_isEnvelope u2 file2 nm2 env2,
    deleteTodo_isEnvelope u3 id1 dbF1 dbT,
    updateNote_isEnvelope u4 id2 updates dbF2 now dbN,
    createReview_isEnvelope u5 fid rating1 c1 cenv1 photoDb rdb1,
    createPokemonReview_isEnvelope u6 pid rating2 c2 cenv2 pokemonDb rdb2,
    getTodos_not_isEnvelope u7 dbF3 dbT2,
    getNotes_not_isEnvelope u8 dbF4 dbN2,
    getPhotos_not_isEnvelope u9 dbF5 search1 sb1 so1 dbP,
    getFoodPhotos_not_isEnvelope u10 dbF6 search2 sb2 so2 dbF⟩

/-! ## Claim C8: user-facing messages on upstream failures -/

/-- C8 counterexample: two uploads differing only in the blob store's
error detail produce different user-facing messages — the storage error
branch concatenates the upstream `uploadError.message` into the returned
message, refuting the claim that the message is a fixed generic string. -/
theorem upstream_message_leak_counterexample :
    (uploadPhoto (some ⟨"me"⟩) (some sampleImageFile) none sampleEnvErrA).result.msg
      ≠ (uploadPhoto (some ⟨"me"⟩) (some sampleImageFile) none sampleEnvErrB).result.msg
    ∧ (uploadPhoto (some ⟨"me"⟩) (some sampleImageFile) none sampleEnvErrA).result.msg
      = "Failed to upload photo: Bucket not found" := by
  refine ⟨by decide, by decide⟩

theorem uploadPhoto_storage_error (u : User) (f : JsFile) (name : Option String)
    (env : UploadEnv) (e : String)
    (hT : jsStartsWith f.type "image/" = true) (hS : ¬ f.size > 10 * 1024 * 1024)
    (hn1 : ¬ jsLength (jsOrElse name f.name) < 1)
    (hn2 : ¬ jsLength (jsOrElse name f.name) > 255)
    (hE : env.uploadError = some e) :
    uploadPhoto (some u) (some f) name env
      = ⟨.envelope false ("Failed to upload photo: " ++ e) none, [.storageUpload]⟩ := by
  obtain ⟨ue, pu, ni, nw, dbf⟩ := env
  replace hE : ue = some e := hE
  subst hE
  show (if !(jsStartsWith f.type "image/") then _
    else if f.size > 10 * 1024 * 1024 then _
    else if jsLength (jsOrElse name f.name) < 1 then _
    else if jsLength (jsOrElse name f.name) > 255 then _
    else _) = _
  rw [hT]
  rw [if_neg (by decide : ¬ ((!(true : Bool)) = true))]
  rw [if_neg hS, if_neg hn1, if_neg hn2]

theorem uploadPhoto_db_error (u : User) (f : JsFile) (name : Option String)
    (env : UploadEnv)
    (hT : jsStartsWith f.type "image/" = true) (hS : ¬ f.size > 10 * 1024 * 1024)
    (hn1 : ¬ jsLength (jsOrElse name f.name) < 1)
    (hn2 : ¬ jsLength (jsOrElse name f.name) > 255)
    (hE : env.uploadError = none) (hD : env.dbFail = true) :
    uploadPhoto (some u) (some f) name env
      = ⟨.envelope false "Failed to upload photo" none, [.storageUpload, .dbCreate]⟩ := by
  obtain ⟨ue, pu, ni, nw, dbf⟩ := env
  replace hE : ue = none := hE
  replace hD : dbf = true := hD
  subst hE
  subst hD
  show (if !(jsStartsWith f.type "image/") then _
    else if f.size > 10 * 1024 * 1024 then _
    else if jsLength (jsOrElse name f.name) < 1 then _
    else if jsLength (jsOrElse name f.name) > 255 then _
    else _) = _
  rw [hT]
  rw [if_neg (by decide : ¬ ((!(true : Bool)) = true))]
  rw [if_neg hS, if_neg hn1, if_neg hn2]
  rfl

theorem uploadFoodPhoto_storage_error (u : User) (f : JsFile) (name : Option String)
    (env : UploadEnv) (e : String)
    (hT : jsStartsWith f.type "image/" = true) (hS : ¬ f.size > 10 * 1024 * 1024)
    (hn1 : ¬ jsLength (jsOrElse name f.name) < 1)
    (hn2 : ¬ jsLength (jsOrElse name f.name) > 255)
    (hE : env.uploadError = some e) :
    uploadFoodPhoto (some u) (some f) name env
      = ⟨.envelope false ("Failed to upload photo: " ++ e) none, [.storageUpload]⟩ := by
  obtain ⟨ue, pu, ni, nw, dbf⟩ := env
  replace hE : ue = some e := hE
  subst hE
  show (if !(jsStartsWith f.type "image/") then _
    else if f.size > 10 * 1024 * 1024 then _
    else if jsLength (jsOrElse name f.name) < 1 then _
    else if jsLength (jsOrElse name f.name) > 255 then _
    else _) = _
  rw [hT]
  rw [if_neg (by decide : ¬ ((!(true : Bool)) = true))]
  rw [if_neg hS, if_neg hn1, if_neg hn2]

theorem uploadFoodPhoto_db_error (u : User) (f : JsFile) (name : Option String)
    (env : UploadEnv)
    (hT : jsStartsWith f.type "image/" = true) (hS : ¬ f.size > 10 * 1024 * 1024)
    (hn1 : ¬ jsLength (jsOrElse name f.name) < 1)
    (hn2 : ¬ jsLength (jsOrElse name f.name) > 255)
    (hE : env.uploadError = none) (hD : env.dbFail = true) :
    uploadFoodPhoto (some u) (some f) name env
      = ⟨.envelope false "Failed to upload food photo" none,
          [.storageUpload, .dbCreate]⟩ := by
  obtain ⟨ue, pu, ni, nw, dbf⟩ := env
  replace hE : ue = none := hE
  replace hD : dbf = true := hD
  subst hE
  subst hD
  show (if !(jsStartsWith f.type "image/") then _
    else if f.size > 10 * 1024 * 1024 then _
    else if jsLength (jsOrElse name f.name) < 1 then _
    else if jsLength (jsOrElse name f.name) > 255 then _
    else _) = _
  rw [hT]
  rw [if_neg (by decide : ¬ ((!(true : Bool)) = true))]
  rw [if_neg hS, if_neg hn1, if_neg hn2]
  rfl

/-- C8 amended: when the blob store reports an error, `uploadPhoto` and
`uploadFoodPhoto` return `"Failed to upload photo: "` concatenated with
the upstream error's message — the user-facing message depends on the
upstream detail; only the catch-all branch (a thrown database error)
uses a fixed generic message. -/
theorem upstream_error_message_dependence
    (u : User) (f : JsFile) (name : Option String)
    (env1 env2 env3 env4 : UploadEnv) (e1 e2 : String)
    (hT : jsStartsWith f.type "image/" = true) (hS : ¬ f.size > 10 * 1024 * 1024)
    (hn1 : ¬ jsLength (jsOrElse name f.name) < 1)
    (hn2 : ¬ jsLength (jsOrElse name f.name) > 255)
    (hE1 : env1.uploadError = some e1) (hE2 : env2.uploadError = some e2)
    (hE3 : env3.uploadError = none) (hD3 : env3.dbFail = true)
    (hE4 : env4.uploadError = none) (hD4 : env4.dbFail = true) :
    (uploadPhoto (some u) (some f) name env1).result.msg
      = "Failed to upload photo: " ++ e1
    ∧ (uploadFoodPhoto (some u) (some f) name env2).result.msg
      = "Failed to upload photo: " ++ e2
    ∧ (uploadPhoto (some u) (some f) name env3).result.msg = "Failed to upload photo"
    ∧ (uploadFoodPhoto (some u) (some f) name env4).result.msg
      = "Failed to upload food photo" := by
  refine ⟨?_, ?_, ?_, ?_⟩
  · rw [uploadPhoto_storage_error u f name env1 e1 hT hS hn1 hn2 hE1]; rfl
  · rw [uploadFoodPhoto_storage_error u f name env2 e2 hT hS hn1 hn2 hE2]; rfl
  · rw [uploadPhoto_db_error u f name env3 hT hS hn1 hn2 hE3 hD3]; rfl
  · rw [uploadFoodPhoto_db_error u f name env4 hT hS hn1 hn2 hE4 hD4]; rfl

/-- Witness for the amended C8 at concrete environments. -/
theorem upstream_error_message_witness :
    jsStartsWith sampleImageFile.type "image/" = true
    ∧ ¬ sampleImageFile.size > 10 * 1024 * 1024
    ∧ ¬ jsLength (jsOrElse none sampleImageFile.name) < 1
    ∧ ¬ jsLength (jsOrElse none sampleImageFile.name) > 255
    ∧ sampleEnvErrA.uploadError = some "Bucket not found"
    ∧ sampleEnvErrB.uploadError = some "Quota exceeded"
    ∧ ((uploadPhoto (some ⟨"me"⟩) (some sampleImageFile) none sampleEnvErrA).result.msg
        = "Failed to upload photo: " ++ "Bucket not found"
      ∧ (uploadFoodPhoto (some ⟨"me"⟩) (some sampleImageFile) none
          sampleEnvErrB).result.msg = "Failed to upload photo: " ++ "Quota exceeded"
      ∧ (uploadPhoto (some ⟨"me"⟩) (some sampleImageFile) none
          ⟨none, "u", "i", 0, true⟩).result.msg = "Failed to upload photo"
      ∧ (uploadFoodPhoto (some ⟨"me"⟩) (some sampleImageFile) none
          ⟨none, "u", "i", 0, true⟩).result.msg = "Failed to upload food photo") :=
  ⟨by decide, by decide, by decide, by decide, rfl, rfl,
    upstream_error_message_dependence ⟨"me"⟩ sampleImageFile none
      sampleEnvErrA sampleEnvErrB ⟨none, "u", "i", 0, true⟩ ⟨none, "u", "i", 0, true⟩
      "Bucket not found" "Quota exceeded"
      (by decide) (by decide) (by decide) (by decide) rfl rfl rfl rfl rfl rfl⟩

/-! ## Claim C10: at most one review per user and target -/

/-- C10: when the authenticated user already has a review for the given
food photo (resp. Pokemon), `createReview` (resp. `createPokemonReview`)
returns a failure envelope and stores no new review — the review table
is unchanged. -/
theorem duplicate_review_rejected
    (u : User) (fid pid : String) (rating1 rating2 : Int)
    (c1 c2 : Option String) (env1 env2 : CreateEnv)
    (photoDb : List FoodPhotoRow) (pokemonDb : List PokemonRow)
    (rdb1 : List ReviewRow) (rdb2 : List PokemonReviewRow)
    (h1 : ∃ r ∈ rdb1, r.foodPhotoId = fid ∧ r.profileId = u.id)
    (h2 : ∃ r ∈ rdb2, r.pokemonId = pid ∧ r.profileId = u.id) :
    ((createReview (some u) fid rating1 c1 env1 photoDb rdb1).result.successTruthy = false
      ∧ (createReview (some u) fid rating1 c1 env1 photoDb rdb1).db = rdb1)
    ∧ ((createPokemonReview (some u) pid rating2 c2 env2 pokemonDb
          rdb2).result.successTruthy = false
      ∧ (createPokemonReview (some u) pid rating2 c2 env2 pokemonDb rdb2).db = rdb2) := by
  have hdup1 : rdb1.find? (fun r => r.foodPhotoId == fid && r.profileId == u.id) ≠ none := by
    rw [Ne, List.find?_eq_none]
    push_neg
    obtain ⟨r, hr, hfid, hpid⟩ := h1
    exact ⟨r, hr, by simp [beq_iff_eq, hfid, hpid]⟩
  have hdup2 : rdb2.find? (fun r => r.pokemonId == pid && r.profileId == u.id) ≠ none := by
    rw [Ne, List.find?_eq_none]
    push_neg
    obtain ⟨r, hr, hpidq, hprof⟩ := h2
    exact ⟨r, hr, by simp [beq_iff_eq, hpidq, hprof]⟩
  constructor
  · unfold createReview
    dsimp only
    repeat' split
    all_goals try exact ⟨rfl, rfl⟩
    rename_i hfound
    exact absurd hfound hdup1
  · unfold createPokemonReview
    dsimp only
    repeat' split
    all_goals try exact ⟨rfl, rfl⟩
    rename_i hfound
    exact absurd hfound hdup2

/-- Witness for C10 at a concrete review table already containing the
user's review. -/
theorem duplicate_review_rejected_witness :
    (∃ r ∈ [sampleReviewRow], r.foodPhotoId = "f1" ∧ r.profileId = "me")
    ∧ (∃ r ∈ [samplePokemonReviewRow], r.pokemonId = "k1" ∧ r.profileId = "me")
    ∧ (((createReview (some ⟨"me"⟩) "f1" 4 none sampleCreateEnv [sampleFoodPhotoRow]
          [sampleReviewRow]).result.successTruthy = false
        ∧ (createReview (some ⟨"me"⟩) "f1" 4 none sampleCreateEnv [sampleFoodPhotoRow]
            [sampleReviewRow]).db = [sampleReviewRow])
      ∧ ((createPokemonReview (some ⟨"me"⟩) "k1" 3 none sampleCreateEnv [samplePokemonRow]
            [samplePokemonReviewRow]).result.successTruthy = false
        ∧ (createPokemonReview (some ⟨"me"⟩) "k1" 3 none sampleCreateEnv [samplePokemonRow]
            [samplePokemonReviewRow]).db = [samplePokemonReviewRow])) :=
  ⟨by decide, by decide,
    duplicate_review_rejected ⟨"me"⟩ "f1" "k1" 4 3 none none
      sampleCreateEnv sampleCreateEnv [sampleFoodPhotoRow] [samplePokemonRow]
      [sampleReviewRow] [samplePokemonReviewRow] (by decide) (by decide)⟩
